import Mathlib

/-!
Verification of the conceptual-server translation layer (`src/server.js`).

The development is a shallow embedding of the two HTTP handlers and their
helpers.  Pure string manipulation (escaping, SPARQL text construction,
result flattening) is translated function-for-function; the single outbound
axios call of each handler is modelled by an explicit outcome value
describing how the store's promise settled, so each handler becomes a pure
function from (request, store outcome) to the HTTP response it sends,
together with the update text it shipped to the store (when any).
-/

namespace ConceptualServer

/-- Constant `BASE_URI` from the configuration section of `src/server.js`. -/
def BASE_URI : String := "http://conceptual-machines.org/"

/-- One global single-character substitution: models a JavaScript
`str.replace(/c/g, r)` call where the pattern is the single character `c`
and every occurrence is replaced by the replacement characters `r`. -/
def replChar (c : Char) (r : List Char) : List Char → List Char
  | [] => []
  | a :: s => (if a = c then r else [a]) ++ replChar c r s

/-- Character-list form of `escapeSparqlString`: the five `.replace` calls
of the source applied in order (backslash, double-quote, newline,
carriage-return, tab), each to the output of the previous one. -/
def escapeChars (s : List Char) : List Char :=
  replChar '\t' ['\\', 't']
    (replChar '\r' ['\\', 'r']
      (replChar '\n' ['\\', 'n']
        (replChar '"' ['\\', '"']
          (replChar '\\' ['\\', '\\'] s))))

/-- Function `escapeSparqlString` from `src/server.js`: the guard `if (!str) return str`
returns a falsy (empty) string unchanged; otherwise the five global
replacements run in order. -/
def escapeSparqlString (s : String) : String :=
  if s = "" then s else String.mk (escapeChars s.data)

/-- Helper `escapeSparqlString` applied to a possibly-absent argument: in JS the
guard `if (!str) return str` also returns `undefined` unchanged. -/
def escapeSparqlStringOpt : Option String → Option String
  | none => none
  | some s => some (escapeSparqlString s)

/-- Per-character escape table: the joint effect of the five substitutions
on one character of the original (pre-escaping) input. -/
def escOne (a : Char) : List Char :=
  if a = '\\' then ['\\', '\\']
  else if a = '"' then ['\\', '"']
  else if a = '\n' then ['\\', 'n']
  else if a = '\r' then ['\\', 'r']
  else if a = '\t' then ['\\', 't']
  else [a]

/-- Value of a SPARQL `ECHAR` escape sequence: the character denoted by a
backslash followed by `c`, per the SPARQL grammar production
`ECHAR ::= '\' [tbnrf"'\]` (so tab, backspace, newline, carriage return,
form feed, double quote, single quote, backslash). -/
def echarVal (c : Char) : Option Char :=
  if c = 't' then some '\t'
  else if c = 'b' then some (Char.ofNat 8)
  else if c = 'n' then some '\n'
  else if c = 'r' then some '\r'
  else if c = 'f' then some (Char.ofNat 12)
  else if c = '"' then some '"'
  else if c = Char.ofNat 39 then some (Char.ofNat 39)
  else if c = '\\' then some '\\'
  else none

/-- Parser for the body of a double-quoted SPARQL string literal, following
the grammar `STRING_LITERAL2 ::= '"' (([^\x22\x5C\x0A\x0D]) | ECHAR)* '"'`:
consumes characters up to the closing double quote, decoding `ECHAR`
escapes, and rejects raw double quotes (handled by the closing case), raw
backslashes that do not begin a valid escape, and raw newline or carriage
return.  Returns the decoded characters and the input remaining after the
closing quote. -/
def parseLitBody : List Char → Option (List Char × List Char)
  | [] => none
  | c :: rest =>
    if c = '"' then some ([], rest)
    else if c = '\\' then
      match rest with
      | [] => none
      | e :: rest2 =>
        match echarVal e with
        | none => none
        | some d =>
          match parseLitBody rest2 with
          | none => none
          | some (cs, rem) => some (d :: cs, rem)
    else if c = '\n' ∨ c = '\r' then none
    else
      match parseLitBody rest with
      | none => none
      | some (cs, rem) => some (c :: cs, rem)

/-- A complete double-quoted SPARQL string literal: an opening quote, a
body, a closing quote, and nothing after it; yields the decoded string. -/
def parseSparqlLiteral (s : String) : Option String :=
  match s.data with
  | [] => none
  | c :: rest =>
    if c = '"' then
      match parseLitBody rest with
      | some (cs, []) => some (String.mk cs)
      | _ => none
    else none

theorem replChar_append (c : Char) (r s t : List Char) :
    replChar c r (s ++ t) = replChar c r s ++ replChar c r t := by
  induction s with
  | nil => rfl
  | cons a s ih => simp [replChar, ih]

theorem escapeChars_append (s t : List Char) :
    escapeChars (s ++ t) = escapeChars s ++ escapeChars t := by
  simp [escapeChars, replChar_append]

theorem escapeChars_singleton (a : Char) : escapeChars [a] = escOne a := by
  by_cases h1 : a = '\\'
  · subst h1; rfl
  · by_cases h2 : a = '"'
    · subst h2; rfl
    · by_cases h3 : a = '\n'
      · subst h3; rfl
      · by_cases h4 : a = '\r'
        · subst h4; rfl
        · by_cases h5 : a = '\t'
          · subst h5; rfl
          · simp [escapeChars, replChar, escOne, h1, h2, h3, h4, h5]

theorem escapeChars_cons (a : Char) (s : List Char) :
    escapeChars (a :: s) = escOne a ++ escapeChars s := by
  have h : a :: s = [a] ++ s := rfl
  rw [h, escapeChars_append, escapeChars_singleton]

theorem escapeSparqlString_data (s : String) :
    (escapeSparqlString s).data = escapeChars s.data := by
  by_cases h : s = ""
  · subst h; rfl
  · simp [escapeSparqlString, h]

theorem parseLitBody_escOne (a : Char) (t : List Char) :
    parseLitBody (escOne a ++ t) =
      Option.map (fun p => (a :: p.1, p.2)) (parseLitBody t) := by
  by_cases h1 : a = '\\'
  · subst h1; cases h : parseLitBody t <;> simp [escOne, parseLitBody, echarVal, h]
  · by_cases h2 : a = '"'
    · subst h2; cases h : parseLitBody t <;> simp [escOne, parseLitBody, echarVal, h]
    · by_cases h3 : a = '\n'
      · subst h3; cases h : parseLitBody t <;> simp [escOne, parseLitBody, echarVal, h]
      · by_cases h4 : a = '\r'
        · subst h4; cases h : parseLitBody t <;> simp [escOne, parseLitBody, echarVal, h]
        · by_cases h5 : a = '\t'
          · subst h5; cases h : parseLitBody t <;> simp [escOne, parseLitBody, echarVal, h]
          · cases h : parseLitBody t <;>
              · simp only [escOne, h1, h2, h3, h4, h5, if_false, List.singleton_append]
                rw [parseLitBody.eq_def]
                simp [h1, h2, h3, h4, h]

theorem parseLitBody_escapeChars (s : List Char) :
    parseLitBody (escapeChars s ++ ['"']) = some (s, []) := by
  induction s with
  | nil => rfl
  | cons a s ih =>
      rw [escapeChars_cons, List.append_assoc, parseLitBody_escOne, ih]
      rfl

/-- Claim C1: for every string, escaping with `escapeSparqlString` and
embedding the result between double quotes yields a well-formed SPARQL
string literal which the SPARQL string-literal grammar decodes back to the
original string (round-trip law). -/
theorem escape_embed_roundtrip (s : String) :
    parseSparqlLiteral ("\"" ++ escapeSparqlString s ++ "\"") = some s := by
  have hdata : ("\"" ++ escapeSparqlString s ++ "\"").data
      = '"' :: (escapeChars s.data ++ ['"']) := by
    rw [String.data_append, String.data_append, escapeSparqlString_data]
    rfl
  rw [parseSparqlLiteral, hdata]
  simp [parseLitBody_escapeChars]

/-- Claim C7: `escapeSparqlString` is exactly the sequential application of
the five substitutions in the order backslash, double-quote, newline,
carriage-return, tab, each applied to the output of the previous one; an
absent or empty input is returned unchanged without error. -/
theorem escape_pipeline_order :
    escapeSparqlStringOpt none = none
    ∧ escapeSparqlString "" = ""
    ∧ ∀ s : String, s ≠ "" →
        escapeSparqlString s =
          String.mk (replChar '\t' ['\\', 't']
            (replChar '\r' ['\\', 'r']
              (replChar '\n' ['\\', 'n']
                (replChar '"' ['\\', '"']
                  (replChar '\\' ['\\', '\\'] s.data))))) :=
  ⟨rfl, rfl, fun s h => by simp [escapeSparqlString, h, escapeChars]⟩

theorem escape_pipeline_order_witness :
    ("a\tb" : String) ≠ ""
    ∧ escapeSparqlString "a\tb" =
        String.mk (replChar '\t' ['\\', 't']
          (replChar '\r' ['\\', 'r']
            (replChar '\n' ['\\', 'n']
              (replChar '"' ['\\', '"']
                (replChar '\\' ['\\', '\\'] ("a\tb" : String).data))))) :=
  ⟨by decide, escape_pipeline_order.2.2 "a\tb" (by decide)⟩

/-- JavaScript truthiness of an optional string value: `undefined` (absent)
and the empty string are falsy, every other string is truthy. -/
def truthy : Option String → Bool
  | none => false
  | some s => s != ""

/-- A node entry of the flattened graph (`processedData.nodes` element). -/
structure GNode where
  id : String
  label : String
  comment : String
deriving DecidableEq

/-- An edge entry of the flattened graph (`processedData.edges` element). -/
structure GEdge where
  source : String
  target : String
  type : String
deriving DecidableEq

/-- The JSON body shapes the two handlers can send: `\x7berror\x7d`,
`\x7bmessage, termId\x7d`, `\x7bmessage, graphDbStatus\x7d`, and
`\x7bnodes, edges\x7d`. -/
inductive RespBody where
  | err (message : String)
  | insertOk (message : String) (termId : String)
  | unexpectedStatus (message : String) (graphDbStatus : Nat)
  | graph (nodes : List GNode) (edges : List GEdge)
deriving DecidableEq

/-- An HTTP response sent by a handler: `res.status(status).json(body)`. -/
structure HttpResp where
  status : Nat
  body : RespBody
deriving DecidableEq

/-- How the axios promise of the update call settled, as observed by the
handler: resolved with a status; rejected with `error.response` present
(carrying the store's status and its body, `none` when the body is falsy);
or rejected with no response attached (transport-level failure such as
connection refused). -/
inductive StoreUpdateOutcome where
  | resolved (status : Nat)
  | rejectedWithResponse (status : Nat) (data : Option String)
  | rejectedNoResponse
deriving DecidableEq

/-- One row of the store's SPARQL JSON results
(`response.data.results.bindings` element).  A field is `some v` when the
variable is bound, with `v` the `.value` of the binding object (a binding
object, even one whose value is the empty string, is truthy in JS), and
`none` when the row has no binding for that variable. -/
structure SparqlBinding where
  node : Option String
  label : Option String
  comment : Option String
  source : Option String
  relationshipType : Option String
deriving DecidableEq

/-- How the axios promise of the query call settled; on resolution the
parsed result rows travel with the status. -/
inductive StoreQueryOutcome where
  | resolved (status : Nat) (bindings : List SparqlBinding)
  | rejectedWithResponse (status : Nat) (data : Option String)
  | rejectedNoResponse
deriving DecidableEq

/-- The body of the POST /insert-term request: `\x7blabel, comment, parentId\x7d`,
each field possibly absent. -/
structure InsertReq where
  label : Option String
  comment : Option String
  parentId : Option String
deriving DecidableEq

/-- The SPARQL update template of the insert handler, text for text the
backtick template of `src/server.js` lines 48-55: a PREFIX line, an
`INSERT DATA` block with a `skos:prefLabel` line, a `skos:note` line that
is present exactly when the escaped comment is truthy, and a
`skos:narrower` line pointing at `parentId` when truthy, else at the
`Root` resource under `BASE_URI`. -/
def mkSparqlUpdate (termUri escapedLabel : String) (escapedComment : Option String)
    (parentId : Option String) : String :=
  "\n     PREFIX skos: <http://www.w3.org/2004/02/skos/core#>\n     INSERT DATA \x7b\n         "
  ++ "<" ++ termUri ++ "> skos:prefLabel \"" ++ escapedLabel ++ "\" ."
  ++ "\n         "
  ++ (if truthy escapedComment then
        "<" ++ termUri ++ "> skos:note \"" ++ escapedComment.getD "" ++ "\" ."
      else "")
  ++ "\n         "
  ++ (if truthy parentId then
        "<" ++ parentId.getD "" ++ "> skos:narrower <" ++ termUri ++ "> ."
      else "<" ++ (BASE_URI ++ "Root") ++ "> skos:narrower <" ++ termUri ++ "> .")
  ++ "\n     \x7d\n    "

/-- The POST /insert-term handler (`src/server.js` lines 32-95), as a pure
function of the current time (`Date.now()`), the request body, and the
store outcome.  The first component is the update text sent to the store's
update endpoint — `none` when validation fails before any store call — and
the second is the HTTP response.  The handler is a total function: every
path, including the rejection paths, ends in `res.status(...).json(...)`,
mirroring the try/catch that lets no exception escape. -/
def insertTermHandler (now : Nat) (req : InsertReq) (store : StoreUpdateOutcome) :
    Option String × HttpResp :=
  if truthy req.label then
    let termId := "Term_" ++ Nat.repr now
    let termUri := BASE_URI ++ termId
    let escapedLabel := escapeSparqlString (req.label.getD "")
    let escapedComment := escapeSparqlStringOpt req.comment
    let sparqlUpdate := mkSparqlUpdate termUri escapedLabel escapedComment req.parentId
    let resp : HttpResp :=
      match store with
      | .resolved status =>
          if status = 204 then
            ⟨200, .insertOk "Term inserted successfully!" termId⟩
          else
            ⟨status, .unexpectedStatus
              "Term might have been inserted, but received unexpected status." status⟩
      | .rejectedWithResponse status data =>
          ⟨status, .err (data.getD "Failed to insert Term into GraphDB.")⟩
      | .rejectedNoResponse =>
          ⟨500, .err "Failed to insert Term into GraphDB."⟩
    (some sparqlUpdate, resp)
  else
    (none, ⟨400, .err "Term label is required."⟩)

/-- The `bindings.forEach` body of the graph handler applied to all rows:
each row pushes one node entry (label and comment default to the empty
string when the binding is absent) and pushes one edge entry exactly when
the row's `source` binding is present; a row with no `node` binding makes
`binding.node.value` throw, modelled as `none` for the whole traversal
(the partially filled arrays are discarded by the catch, so only the
all-rows result is observable). -/
def processBindings : List SparqlBinding → Option (List GNode × List GEdge)
  | [] => some ([], [])
  | b :: rest =>
    match b.node with
    | none => none
    | some nodeValue =>
      match processBindings rest with
      | none => none
      | some (nodes, edges) =>
        some (⟨nodeValue, b.label.getD "", b.comment.getD ""⟩ :: nodes,
          match b.source with
          | some sourceValue =>
              ⟨sourceValue, nodeValue, b.relationshipType.getD ""⟩ :: edges
          | none => edges)

/-- The GET /graph handler (`src/server.js` lines 99-194) as a pure
function of the store outcome.  On a 200 response the rows are flattened;
a throw during flattening (missing `node` binding) falls into the catch,
whose error has no `.response`, hence status 500 and the generic message.
Other statuses and rejections mirror the insert handler's shaping. -/
def fetchGraphHandler (store : StoreQueryOutcome) : HttpResp :=
  match store with
  | .resolved status bindings =>
      if status = 200 then
        match processBindings bindings with
        | some (nodes, edges) => ⟨200, .graph nodes edges⟩
        | none => ⟨500, .err "Failed to fetch data from GraphDB."⟩
      else
        ⟨status, .unexpectedStatus
          "Data might have been fetched, but received unexpected status." status⟩
  | .rejectedWithResponse status data =>
      ⟨status, .err (data.getD "Failed to fetch data from GraphDB.")⟩
  | .rejectedNoResponse =>
      ⟨500, .err "Failed to fetch data from GraphDB."⟩

/-- Claim C2: an absent or empty label makes the handler answer 400 with an
error payload and send nothing to the store's update endpoint. -/
theorem missing_label_rejected (now : Nat) (req : InsertReq) (store : StoreUpdateOutcome)
    (h : truthy req.label = false) :
    insertTermHandler now req store = (none, ⟨400, RespBody.err "Term label is required."⟩) := by
  simp [insertTermHandler, h]

theorem missing_label_rejected_witness :
    truthy (InsertReq.mk none none none).label = false
    ∧ insertTermHandler 0 ⟨none, none, none⟩ StoreUpdateOutcome.rejectedNoResponse
        = (none, ⟨400, RespBody.err "Term label is required."⟩)
    ∧ truthy (InsertReq.mk (some "") none none).label = false
    ∧ insertTermHandler 0 ⟨some "", none, none⟩ (StoreUpdateOutcome.resolved 204)
        = (none, ⟨400, RespBody.err "Term label is required."⟩) :=
  ⟨rfl, missing_label_rejected 0 ⟨none, none, none⟩ _ rfl,
   by decide, missing_label_rejected 0 ⟨some "", none, none⟩ _ (by decide)⟩

/-- Claim C5: when the store resolves an update with any status other than
204, the handler passes that very status through with the warning message
`Term might have been inserted, but received unexpected status.` instead of
reporting success. -/
theorem unexpected_update_status_passthrough (now : Nat) (req : InsertReq) (status : Nat)
    (hl : truthy req.label = true) (hs : status ≠ 204) :
    (insertTermHandler now req (StoreUpdateOutcome.resolved status)).2
      = ⟨status, RespBody.unexpectedStatus
          "Term might have been inserted, but received unexpected status." status⟩ := by
  simp [insertTermHandler, hl, hs]

theorem unexpected_update_status_passthrough_witness :
    truthy (InsertReq.mk (some "Fruit") none none).label = true
    ∧ (200 : Nat) ≠ 204
    ∧ (insertTermHandler 0 ⟨some "Fruit", none, none⟩ (StoreUpdateOutcome.resolved 200)).2
        = ⟨200, RespBody.unexpectedStatus
            "Term might have been inserted, but received unexpected status." 200⟩ :=
  ⟨by decide, by decide,
   unexpected_update_status_passthrough 0 ⟨some "Fruit", none, none⟩ 200 (by decide) (by decide)⟩

/-- Claim C6: a transport-level failure (rejection with no response
attached) makes both handlers answer 500 with their generic failure
message; both handlers stay total, so no fault escapes the
request-handling path. -/
theorem transport_failure_returns_500 :
    (∀ (now : Nat) (req : InsertReq), truthy req.label = true →
      (insertTermHandler now req StoreUpdateOutcome.rejectedNoResponse).2
        = ⟨500, RespBody.err "Failed to insert Term into GraphDB."⟩)
    ∧ fetchGraphHandler StoreQueryOutcome.rejectedNoResponse
        = ⟨500, RespBody.err "Failed to fetch data from GraphDB."⟩ := by
  refine ⟨fun now req hl => ?_, rfl⟩
  simp [insertTermHandler, hl]

theorem transport_failure_returns_500_witness :
    truthy (InsertReq.mk (some "Fruit") none none).label = true
    ∧ (insertTermHandler 3 ⟨some "Fruit", none, none⟩ StoreUpdateOutcome.rejectedNoResponse).2
        = ⟨500, RespBody.err "Failed to insert Term into GraphDB."⟩ :=
  ⟨by decide, transport_failure_returns_500.1 3 ⟨some "Fruit", none, none⟩ (by decide)⟩

/-- The node entry a result row contributes. -/
def nodeOfBinding (b : SparqlBinding) : GNode :=
  ⟨b.node.getD "", b.label.getD "", b.comment.getD ""⟩

/-- The edge entry a result row contributes, when its `source` is bound. -/
def edgeOfBinding (b : SparqlBinding) : Option GEdge :=
  b.source.map fun sourceValue => ⟨sourceValue, b.node.getD "", b.relationshipType.getD ""⟩

/-- Claim C4: when every row has a `node` binding, flattening yields exactly
one node entry per row, in row order and without de-duplication (the node
list is a plain `map` over the rows), with label and comment defaulting to
the empty string, and one edge entry exactly for the rows whose `source`
binding is populated (the edge list is a `filterMap`); the 200-status graph
handler returns exactly this flattened structure. -/
theorem flatten_one_node_per_row (bs : List SparqlBinding)
    (h : ∀ b ∈ bs, b.node.isSome) :
    processBindings bs = some (bs.map nodeOfBinding, bs.filterMap edgeOfBinding)
    ∧ fetchGraphHandler (StoreQueryOutcome.resolved 200 bs)
        = ⟨200, RespBody.graph (bs.map nodeOfBinding) (bs.filterMap edgeOfBinding)⟩ := by
  have hp : processBindings bs = some (bs.map nodeOfBinding, bs.filterMap edgeOfBinding) := by
    induction bs with
    | nil => rfl
    | cons b rest ih =>
        obtain ⟨nv, hnv⟩ := Option.isSome_iff_exists.mp (h b (by simp))
        have hrest := ih fun x hx => h x (by simp [hx])
        cases hsrc : b.source <;>
          simp [processBindings, hnv, hrest, nodeOfBinding, edgeOfBinding, hsrc,
            List.filterMap_cons]
  exact ⟨hp, by simp [fetchGraphHandler, hp]⟩

/-- Three result rows as in the spec's example: row 2 has no `source`
binding; rows 1 and 2 share the same node identifier (checking that no
de-duplication happens). -/
def demoBindings : List SparqlBinding :=
  [⟨some "http://conceptual-machines.org/Term_1", some "Fruit", none,
      some "http://conceptual-machines.org/Root",
      some "http://www.w3.org/2004/02/skos/core#narrower"⟩,
   ⟨some "http://conceptual-machines.org/Term_1", none, some "a note", none, none⟩,
   ⟨some "http://conceptual-machines.org/Term_2", some "Apple", none,
      some "http://conceptual-machines.org/Term_1", none⟩]

theorem flatten_one_node_per_row_witness :
    (∀ b ∈ demoBindings, b.node.isSome)
    ∧ processBindings demoBindings
        = some (demoBindings.map nodeOfBinding, demoBindings.filterMap edgeOfBinding)
    ∧ (demoBindings.map nodeOfBinding).length = 3
    ∧ (demoBindings.filterMap edgeOfBinding).length = 2 :=
  ⟨by decide, (flatten_one_node_per_row demoBindings (by decide)).1, by decide, by decide⟩

/-- Claim C10: a result row with no `node` binding faults the whole
traversal, and the graph handler turns the fault into a 500 response with
the generic failure message, never a partial graph. -/
theorem missing_node_binding_faults (bs : List SparqlBinding)
    (h : ∃ b ∈ bs, b.node = none) :
    processBindings bs = none
    ∧ fetchGraphHandler (StoreQueryOutcome.resolved 200 bs)
        = ⟨500, RespBody.err "Failed to fetch data from GraphDB."⟩ := by
  have hp : processBindings bs = none := by
    induction bs with
    | nil => simp at h
    | cons b rest ih =>
        rcases h with ⟨x, hx, hxnone⟩
        rcases List.mem_cons.mp hx with hxb | hxr
        · subst hxb; simp [processBindings, hxnone]
        · cases hb : b.node with
          | none => simp [processBindings, hb]
          | some nv => simp [processBindings, hb, ih ⟨x, hxr, hxnone⟩]
  exact ⟨hp, by simp [fetchGraphHandler, hp]⟩

theorem missing_node_binding_faults_witness :
    (∃ b ∈ [SparqlBinding.mk (some "http://conceptual-machines.org/Term_1") none none none none,
            SparqlBinding.mk none (some "orphan") none none none], b.node = none)
    ∧ processBindings
        [⟨some "http://conceptual-machines.org/Term_1", none, none, none, none⟩,
         ⟨none, some "orphan", none, none, none⟩] = none
    ∧ fetchGraphHandler (StoreQueryOutcome.resolved 200
        [⟨some "http://conceptual-machines.org/Term_1", none, none, none, none⟩,
         ⟨none, some "orphan", none, none, none⟩])
        = ⟨500, RespBody.err "Failed to fetch data from GraphDB."⟩ := by
  refine ⟨by decide, ?_⟩
  exact missing_node_binding_faults _ (by decide)

theorem escOne_ne_nil (a : Char) : escOne a ≠ [] := by
  unfold escOne; split_ifs <;> simp

theorem escapeSparqlString_eq_empty_iff (s : String) :
    escapeSparqlString s = "" ↔ s = "" := by
  constructor
  · intro h
    by_contra hs
    obtain ⟨a, t, hat⟩ : ∃ a t, s.data = a :: t := by
      cases hd : s.data with
      | nil => exact absurd (String.ext (hd.trans rfl)) hs
      | cons a t => exact ⟨a, t, rfl⟩
    have : (escapeSparqlString s).data = [] := by rw [h]
    rw [escapeSparqlString_data, hat, escapeChars_cons] at this
    exact escOne_ne_nil a (List.append_eq_nil.mp this).1
  · intro h; subst h; rfl

theorem truthy_escapeSparqlStringOpt (c : Option String) :
    truthy (escapeSparqlStringOpt c) = truthy c := by
  cases c with
  | none => rfl
  | some s =>
      by_cases h : s = ""
      · subst h; rfl
      · have he : escapeSparqlString s ≠ "" :=
          fun hc => h (escapeSparqlString_eq_empty_iff s |>.mp hc)
        have h1 : (escapeSparqlString s != "") = true := bne_iff_ne.mpr he
        have h2 : (s != "") = true := bne_iff_ne.mpr h
        simp only [escapeSparqlStringOpt, truthy, h1, h2]

/-- One RDF statement of the constructed `INSERT DATA` block. -/
inductive SparqlStmt where
  | prefLabelStmt (subj : String) (literal : String)
  | noteStmt (subj : String) (literal : String)
  | narrowerStmt (parent : String) (child : String)
deriving DecidableEq

/-- The statement set of the constructed `INSERT DATA` block as structured
data: one statement per non-empty template slot, with the same three
conditionals as the template in `mkSparqlUpdate`. -/
def insertStmts (termUri escapedLabel : String) (escapedComment : Option String)
    (parentId : Option String) : List SparqlStmt :=
  [SparqlStmt.prefLabelStmt termUri escapedLabel]
  ++ (if truthy escapedComment then
        [SparqlStmt.noteStmt termUri (escapedComment.getD "")]
      else [])
  ++ [if truthy parentId then SparqlStmt.narrowerStmt (parentId.getD "") termUri
      else SparqlStmt.narrowerStmt (BASE_URI ++ "Root") termUri]

/-- The exact template text of one statement, as it appears in the
corresponding slot of `mkSparqlUpdate`. -/
def stmtText : SparqlStmt → String
  | .prefLabelStmt subj lit => "<" ++ subj ++ "> skos:prefLabel \"" ++ lit ++ "\" ."
  | .noteStmt subj lit => "<" ++ subj ++ "> skos:note \"" ++ lit ++ "\" ."
  | .narrowerStmt parent child => "<" ++ parent ++ "> skos:narrower <" ++ child ++ "> ."

def isPrefLabelStmt : SparqlStmt → Bool
  | .prefLabelStmt _ _ => true
  | _ => false

def isNoteStmt : SparqlStmt → Bool
  | .noteStmt _ _ => true
  | _ => false

def isNarrowerStmt : SparqlStmt → Bool
  | .narrowerStmt _ _ => true
  | _ => false

/-- Every statement of the structured statement set occurs verbatim (with
its template text) inside the constructed update string. -/
theorem stmtText_in_update (termUri escapedLabel : String)
    (escapedComment parentId : Option String) :
    ∀ st ∈ insertStmts termUri escapedLabel escapedComment parentId,
      ∃ pre post,
        mkSparqlUpdate termUri escapedLabel escapedComment parentId
          = pre ++ stmtText st ++ post := by
  intro st hst
  by_cases hc : truthy escapedComment <;> by_cases hp : truthy parentId <;>
    simp only [insertStmts, hc, hp, Bool.false_eq_true, eq_self_iff_true,
      if_true, if_false, List.append_nil, List.cons_append, List.nil_append,
      List.mem_cons, List.mem_singleton, List.not_mem_nil, or_false] at hst
  · rcases hst with h | h | h <;> subst h
    · exact ⟨"\n     PREFIX skos: <http://www.w3.org/2004/02/skos/core#>\n     INSERT DATA \x7b\n         ",
        "\n         " ++ ("<" ++ termUri ++ "> skos:note \"" ++ escapedComment.getD "" ++ "\" .")
          ++ "\n         "
          ++ ("<" ++ parentId.getD "" ++ "> skos:narrower <" ++ termUri ++ "> .")
          ++ "\n     \x7d\n    ",
        by simp only [mkSparqlUpdate, stmtText, hc, hp, Bool.false_eq_true,
          eq_self_iff_true, if_true, if_false, String.append_assoc,
          String.empty_append, String.append_empty]⟩
    · exact ⟨"\n     PREFIX skos: <http://www.w3.org/2004/02/skos/core#>\n     INSERT DATA \x7b\n         "
          ++ ("<" ++ termUri ++ "> skos:prefLabel \"" ++ escapedLabel ++ "\" .")
          ++ "\n         ",
        "\n         "
          ++ ("<" ++ parentId.getD "" ++ "> skos:narrower <" ++ termUri ++ "> .")
          ++ "\n     \x7d\n    ",
        by simp only [mkSparqlUpdate, stmtText, hc, hp, Bool.false_eq_true,
          eq_self_iff_true, if_true, if_false, String.append_assoc,
          String.empty_append, String.append_empty]⟩
    · exact ⟨"\n     PREFIX skos: <http://www.w3.org/2004/02/skos/core#>\n     INSERT DATA \x7b\n         "
          ++ ("<" ++ termUri ++ "> skos:prefLabel \"" ++ escapedLabel ++ "\" .")
          ++ "\n         "
          ++ ("<" ++ termUri ++ "> skos:note \"" ++ escapedComment.getD "" ++ "\" .")
          ++ "\n         ",
        "\n     \x7d\n    ",
        by simp only [mkSparqlUpdate, stmtText, hc, hp, Bool.false_eq_true,
          eq_self_iff_true, if_true, if_false, String.append_assoc,
          String.empty_append, String.append_empty]⟩
  · rcases hst with h | h | h <;> subst h
    · exact ⟨"\n     PREFIX skos: <http://www.w3.org/2004/02/skos/core#>\n     INSERT DATA \x7b\n         ",
        "\n         " ++ ("<" ++ termUri ++ "> skos:note \"" ++ escapedComment.getD "" ++ "\" .")
          ++ "\n         "
          ++ ("<" ++ (BASE_URI ++ "Root") ++ "> skos:narrower <" ++ termUri ++ "> .")
          ++ "\n     \x7d\n    ",
        by simp only [mkSparqlUpdate, stmtText, hc, hp, Bool.false_eq_true,
          eq_self_iff_true, if_true, if_false, String.append_assoc,
          String.empty_append, String.append_empty]⟩
    · exact ⟨"\n     PREFIX skos: <http://www.w3.org/2004/02/skos/core#>\n     INSERT DATA \x7b\n         "
          ++ ("<" ++ termUri ++ "> skos:prefLabel \"" ++ escapedLabel ++ "\" .")
          ++ "\n         ",
        "\n         "
          ++ ("<" ++ (BASE_URI ++ "Root") ++ "> skos:narrower <" ++ termUri ++ "> .")
          ++ "\n     \x7d\n    ",
        by simp only [mkSparqlUpdate, stmtText, hc, hp, Bool.false_eq_true,
          eq_self_iff_true, if_true, if_false, String.append_assoc,
          String.empty_append, String.append_empty]⟩
    · exact ⟨"\n     PREFIX skos: <http://www.w3.org/2004/02/skos/core#>\n     INSERT DATA \x7b\n         "
          ++ ("<" ++ termUri ++ "> skos:prefLabel \"" ++ escapedLabel ++ "\" .")
          ++ "\n         "
          ++ ("<" ++ termUri ++ "> skos:note \"" ++ escapedComment.getD "" ++ "\" .")
          ++ "\n         ",
        "\n     \x7d\n    ",
        by simp only [mkSparqlUpdate, stmtText, hc, hp, Bool.false_eq_true,
          eq_self_iff_true, if_true, if_false, String.append_assoc,
          String.empty_append, String.append_empty]⟩
  · rcases hst with h | h <;> subst h
    · exact ⟨"\n     PREFIX skos: <http://www.w3.org/2004/02/skos/core#>\n     INSERT DATA \x7b\n         ",
        "\n         " ++ "\n         "
          ++ ("<" ++ parentId.getD "" ++ "> skos:narrower <" ++ termUri ++ "> .")
          ++ "\n     \x7d\n    ",
        by simp only [mkSparqlUpdate, stmtText, hc, hp, Bool.false_eq_true,
          eq_self_iff_true, if_true, if_false, String.append_assoc,
          String.empty_append, String.append_empty]⟩
    · exact ⟨"\n     PREFIX skos: <http://www.w3.org/2004/02/skos/core#>\n     INSERT DATA \x7b\n         "
          ++ ("<" ++ termUri ++ "> skos:prefLabel \"" ++ escapedLabel ++ "\" .")
          ++ "\n         " ++ "\n         ",
        "\n     \x7d\n    ",
        by simp only [mkSparqlUpdate, stmtText, hc, hp, Bool.false_eq_true,
          eq_self_iff_true, if_true, if_false, String.append_assoc,
          String.empty_append, String.append_empty]⟩
  · rcases hst with h | h <;> subst h
    · exact ⟨"\n     PREFIX skos: <http://www.w3.org/2004/02/skos/core#>\n     INSERT DATA \x7b\n         ",
        "\n         " ++ "\n         "
          ++ ("<" ++ (BASE_URI ++ "Root") ++ "> skos:narrower <" ++ termUri ++ "> .")
          ++ "\n     \x7d\n    ",
        by simp only [mkSparqlUpdate, stmtText, hc, hp, Bool.false_eq_true,
          eq_self_iff_true, if_true, if_false, String.append_assoc,
          String.empty_append, String.append_empty]⟩
    · exact ⟨"\n     PREFIX skos: <http://www.w3.org/2004/02/skos/core#>\n     INSERT DATA \x7b\n         "
          ++ ("<" ++ termUri ++ "> skos:prefLabel \"" ++ escapedLabel ++ "\" .")
          ++ "\n         " ++ "\n         ",
        "\n     \x7d\n    ",
        by simp only [mkSparqlUpdate, stmtText, hc, hp, Bool.false_eq_true,
          eq_self_iff_true, if_true, if_false, String.append_assoc,
          String.empty_append, String.append_empty]⟩

/-- The term URI minted by the insert handler at time `now`:
`BASE_URI` followed by `Term_` and the decimal time value. -/
def termUriOf (now : Nat) : String := BASE_URI ++ ("Term_" ++ Nat.repr now)

/-- The statement set the insert handler constructs for a request. -/
def stmtsOf (now : Nat) (label : String) (comment parentId : Option String) :
    List SparqlStmt :=
  insertStmts (termUriOf now) (escapeSparqlString label)
    (escapeSparqlStringOpt comment) parentId

/-- The update text the insert handler constructs for a request. -/
def updateTextOf (now : Nat) (label : String) (comment parentId : Option String) :
    String :=
  mkSparqlUpdate (termUriOf now) (escapeSparqlString label)
    (escapeSparqlStringOpt comment) parentId

/-- Claim C3: for every insertion request with non-empty label, the update
sent to the store is the rendered template over a statement set containing
exactly one `skos:prefLabel` assertion; a `skos:note` assertion exactly
when the comment is non-empty; a `skos:narrower` assertion from `parentId`
to the new term when a non-empty `parentId` is supplied, and from the
well-known `Root` otherwise (the spec treats an empty string like an
absent field throughout, matching the handler's truthiness tests); every
statement of the set occurs verbatim in the update text. -/
theorem insert_statement_set_shape (now : Nat) (label : String)
    (comment parentId : Option String) (store : StoreUpdateOutcome)
    (hl : label ≠ "") :
    (insertTermHandler now ⟨some label, comment, parentId⟩ store).1
      = some (updateTextOf now label comment parentId)
    ∧ (stmtsOf now label comment parentId).countP isPrefLabelStmt = 1
    ∧ (stmtsOf now label comment parentId).countP isNoteStmt
        = (if truthy comment then 1 else 0)
    ∧ (∀ p : String, parentId = some p → p ≠ "" →
        (stmtsOf now label comment parentId).countP isNarrowerStmt = 1
        ∧ SparqlStmt.narrowerStmt p (termUriOf now) ∈ stmtsOf now label comment parentId)
    ∧ (truthy parentId = false →
        (stmtsOf now label comment parentId).countP isNarrowerStmt = 1
        ∧ SparqlStmt.narrowerStmt (BASE_URI ++ "Root") (termUriOf now)
            ∈ stmtsOf now label comment parentId)
    ∧ ∀ st ∈ stmtsOf now label comment parentId,
        ∃ pre post, updateTextOf now label comment parentId
          = pre ++ stmtText st ++ post := by
  have htl : truthy (some label) = true := bne_iff_ne.mpr hl
  refine ⟨?_, ?_, ?_, ?_, ?_, ?_⟩
  · simp [insertTermHandler, htl, updateTextOf, stmtsOf, termUriOf]
  · by_cases hc : truthy comment <;> by_cases hp : truthy parentId <;>
      simp [stmtsOf, insertStmts, truthy_escapeSparqlStringOpt, hc, hp,
        List.countP_append, List.countP_cons, isPrefLabelStmt, isNoteStmt]
  · by_cases hc : truthy comment <;> by_cases hp : truthy parentId <;>
      simp [stmtsOf, insertStmts, truthy_escapeSparqlStringOpt, hc, hp,
        List.countP_append, List.countP_cons, isPrefLabelStmt, isNoteStmt]
  · intro p hpp hpe
    subst hpp
    have hpt : truthy (some p) = true := bne_iff_ne.mpr hpe
    by_cases hc : truthy comment <;>
      simp [stmtsOf, insertStmts, truthy_escapeSparqlStringOpt, hc, hpt,
        List.countP_append, List.countP_cons, isPrefLabelStmt, isNoteStmt,
        isNarrowerStmt]
  · intro hpf
    by_cases hc : truthy comment <;>
      simp [stmtsOf, insertStmts, truthy_escapeSparqlStringOpt, hc, hpf,
        List.countP_append, List.countP_cons, isPrefLabelStmt, isNoteStmt,
        isNarrowerStmt]
  · exact stmtText_in_update (termUriOf now) (escapeSparqlString label)
      (escapeSparqlStringOpt comment) parentId

theorem insert_statement_set_shape_witness :
    ("Apple" : String) ≠ ""
    ∧ (stmtsOf 0 "Apple" (some "A fruit") (some "http://example.org/Fruit")).countP
        isPrefLabelStmt = 1
    ∧ (stmtsOf 0 "Apple" (some "A fruit") (some "http://example.org/Fruit")).countP
        isNoteStmt = (if truthy (some "A fruit") then 1 else 0)
    ∧ (SparqlStmt.narrowerStmt "http://example.org/Fruit" (termUriOf 0)
        ∈ stmtsOf 0 "Apple" (some "A fruit") (some "http://example.org/Fruit"))
    ∧ ("Fruit" : String) ≠ ""
    ∧ (stmtsOf 0 "Fruit" none none).countP isNoteStmt = (if truthy none then 1 else 0)
    ∧ SparqlStmt.narrowerStmt (BASE_URI ++ "Root") (termUriOf 0)
        ∈ stmtsOf 0 "Fruit" none none :=
  ⟨by decide,
   (insert_statement_set_shape 0 "Apple" (some "A fruit") (some "http://example.org/Fruit")
      StoreUpdateOutcome.rejectedNoResponse (by decide)).2.1,
   (insert_statement_set_shape 0 "Apple" (some "A fruit") (some "http://example.org/Fruit")
      StoreUpdateOutcome.rejectedNoResponse (by decide)).2.2.1,
   ((insert_statement_set_shape 0 "Apple" (some "A fruit") (some "http://example.org/Fruit")
      StoreUpdateOutcome.rejectedNoResponse (by decide)).2.2.2.1 "http://example.org/Fruit"
      rfl (by decide)).2,
   by decide,
   (insert_statement_set_shape 0 "Fruit" none none
      StoreUpdateOutcome.rejectedNoResponse (by decide)).2.2.1,
   ((insert_statement_set_shape 0 "Fruit" none none
      StoreUpdateOutcome.rejectedNoResponse (by decide)).2.2.2.2.1 rfl).2⟩

/-- Claim C9: a non-empty `parentId` is spliced character-for-character
into the update text sent to the store, between an angle bracket and
`> skos:narrower <`, with no escaping and no validation — whatever
SPARQL-significant characters it contains. -/
theorem parent_id_embedded_verbatim (now : Nat) (req : InsertReq)
    (store : StoreUpdateOutcome) (p : String)
    (hl : truthy req.label = true) (hp : req.parentId = some p) (hpe : p ≠ "") :
    ∃ pre post, (insertTermHandler now req store).1
      = some (pre ++ ("<" ++ p ++ "> skos:narrower <" ++ termUriOf now ++ "> .") ++ post) := by
  have hpt : truthy (some p) = true := bne_iff_ne.mpr hpe
  have hmem : SparqlStmt.narrowerStmt p (termUriOf now)
      ∈ insertStmts (termUriOf now) (escapeSparqlString (req.label.getD ""))
        (escapeSparqlStringOpt req.comment) req.parentId := by
    simp [insertStmts, hp, hpt]
  obtain ⟨pre, post, hsub⟩ := stmtText_in_update (termUriOf now)
    (escapeSparqlString (req.label.getD "")) (escapeSparqlStringOpt req.comment)
    req.parentId _ hmem
  refine ⟨pre, post, ?_⟩
  have hsent : (insertTermHandler now req store).1
      = some (mkSparqlUpdate (termUriOf now) (escapeSparqlString (req.label.getD ""))
          (escapeSparqlStringOpt req.comment) req.parentId) := by
    simp [insertTermHandler, hl, termUriOf]
  rw [hsent, hsub]
  simp [stmtText, String.append_assoc]

theorem parent_id_embedded_verbatim_witness :
    ∃ pre post,
      (insertTermHandler 7 ⟨some "Apple", none, some "http://x.org/a> <b"⟩
          StoreUpdateOutcome.rejectedNoResponse).1
        = some (pre ++ ("<" ++ "http://x.org/a> <b" ++ "> skos:narrower <"
            ++ termUriOf 7 ++ "> .") ++ post) :=
  parent_id_embedded_verbatim 7 ⟨some "Apple", none, some "http://x.org/a> <b"⟩
    StoreUpdateOutcome.rejectedNoResponse "http://x.org/a> <b" (by decide) rfl (by decide)

/-- Decimal digit characters of a natural number, most significant first:
the list `Nat.toDigitsCore` produces when given enough fuel. -/
def natDecimal (n : Nat) : List Char :=
  if _h : n < 10 then [Nat.digitChar n]
  else natDecimal (n / 10) ++ [Nat.digitChar (n % 10)]
termination_by n
decreasing_by
  simp_wf
  exact Nat.div_lt_self (by omega) (by omega)

theorem toDigitsCore_eq_natDecimal (f : Nat) :
    ∀ (n : Nat) (ds : List Char), n < f →
      Nat.toDigitsCore 10 f n ds = natDecimal n ++ ds := by
  induction f with
  | zero => intro n ds h; omega
  | succ f ih =>
      intro n ds h
      rw [Nat.toDigitsCore]
      by_cases h10 : n / 10 = 0
      · have hn : n < 10 := by
          by_contra hge
          have h1 : 10 / 10 ≤ n / 10 := Nat.div_le_div_right (by omega)
          omega
        rw [natDecimal.eq_def]
        simp [h10, hn, Nat.mod_eq_of_lt hn]
      · have hn : ¬n < 10 := fun hlt => h10 (Nat.div_eq_of_lt hlt)
        have hd : n / 10 < n := Nat.div_lt_self (by omega) (by omega)
        have hlt : n / 10 < f := by omega
        simp only [h10, if_false]
        rw [ih (n / 10) _ hlt]
        conv_rhs => rw [natDecimal.eq_def]
        simp [hn]

/-- The accumulator step of reading a decimal digit list back into a
number. -/
def decimalStep (a : Nat) (c : Char) : Nat := a * 10 + (c.toNat - 48)

theorem digitChar_toNat_sub (d : Nat) (h : d < 10) :
    (Nat.digitChar d).toNat - 48 = d := by
  interval_cases d <;> rfl

theorem foldl_decimalStep_natDecimal (n : Nat) :
    ∀ a : Nat, List.foldl decimalStep a (natDecimal n)
      = a * 10 ^ (natDecimal n).length + n := by
  induction n using Nat.strong_induction_on with
  | _ n ih =>
    intro a
    by_cases h : n < 10
    · rw [natDecimal.eq_def]
      simp [h, decimalStep, digitChar_toNat_sub n h]
    · have hdiv : n / 10 < n := Nat.div_lt_self (by omega) (by omega)
      have hmod : 10 * (n / 10) + n % 10 = n := Nat.div_add_mod n 10
      rw [natDecimal.eq_def]
      simp only [h, dif_neg, not_false_iff, List.foldl_append, List.length_append,
        List.length_singleton]
      rw [ih (n / 10) hdiv a]
      simp only [List.foldl_cons, List.foldl_nil, decimalStep,
        digitChar_toNat_sub (n % 10) (Nat.mod_lt n (by omega))]
      calc (a * 10 ^ (natDecimal (n / 10)).length + n / 10) * 10 + n % 10
          = a * (10 ^ (natDecimal (n / 10)).length * 10)
            + (10 * (n / 10) + n % 10) := by ring
        _ = a * 10 ^ ((natDecimal (n / 10)).length + 1) + n := by
            rw [hmod, pow_succ]

theorem natDecimal_injective (n m : Nat) (h : natDecimal n = natDecimal m) :
    n = m := by
  have h1 := foldl_decimalStep_natDecimal n 0
  have h2 := foldl_decimalStep_natDecimal m 0
  rw [h] at h1
  rw [h1] at h2
  omega

theorem natRepr_injective (n m : Nat) (h : Nat.repr n = Nat.repr m) : n = m := by
  have hd : natDecimal n ++ ([] : List Char) = natDecimal m ++ [] := by
    rw [← toDigitsCore_eq_natDecimal (n + 1) n [] (by omega),
        ← toDigitsCore_eq_natDecimal (m + 1) m [] (by omega)]
    have := congrArg String.data h
    simpa [Nat.repr, Nat.toDigits, List.asString] using this
  exact natDecimal_injective n m (by simpa using hd)

/-- Claim C8 counterexample: two distinct insertion requests served at the
same `Date.now()` value receive the very same generated identifier
`Term_1000`, so generated identifiers are not distinct for any two
requests within a process's lifetime. -/
theorem same_time_identifier_collision :
    (⟨some "Fruit", none, none⟩ : InsertReq) ≠ ⟨some "Vegetable", none, none⟩
    ∧ (insertTermHandler 1000 ⟨some "Fruit", none, none⟩
        (StoreUpdateOutcome.resolved 204)).2.body
        = RespBody.insertOk "Term inserted successfully!" "Term_1000"
    ∧ (insertTermHandler 1000 ⟨some "Vegetable", none, none⟩
        (StoreUpdateOutcome.resolved 204)).2.body
        = RespBody.insertOk "Term inserted successfully!" "Term_1000" := by
  refine ⟨by decide, ?_, ?_⟩ <;> rfl

/-- Claim C8 (amended): on a successful insertion the generated identifier
is the fixed prefix `Term_` followed by the decimal rendering of the
`Date.now()` value, and identifiers minted at distinct time values are
distinct; requests served within the same millisecond share one
identifier, so uniqueness holds only across distinct clock readings. -/
theorem identifier_time_derived_and_distinct :
    (∀ (now : Nat) (req : InsertReq), truthy req.label = true →
      (insertTermHandler now req (StoreUpdateOutcome.resolved 204)).2.body
        = RespBody.insertOk "Term inserted successfully!" ("Term_" ++ Nat.repr now))
    ∧ ∀ n m : Nat, n ≠ m → ("Term_" ++ Nat.repr n : String) ≠ "Term_" ++ Nat.repr m := by
  constructor
  · intro now req hl
    simp [insertTermHandler, hl]
  · intro n m hnm heq
    apply hnm
    apply natRepr_injective
    have hdata := congrArg String.data heq
    rw [String.data_append, String.data_append] at hdata
    exact String.ext (List.append_cancel_left hdata)

theorem identifier_time_derived_and_distinct_witness :
    truthy (InsertReq.mk (some "Fruit") none none).label = true
    ∧ (insertTermHandler 42 ⟨some "Fruit", none, none⟩
        (StoreUpdateOutcome.resolved 204)).2.body
        = RespBody.insertOk "Term inserted successfully!" ("Term_" ++ Nat.repr 42)
    ∧ (42 : Nat) ≠ 43
    ∧ ("Term_" ++ Nat.repr 42 : String) ≠ "Term_" ++ Nat.repr 43 :=
  ⟨by decide, identifier_time_derived_and_distinct.1 42 ⟨some "Fruit", none, none⟩ (by decide),
   by decide, identifier_time_derived_and_distinct.2 42 43 (by decide)⟩

end ConceptualServer
